import Mathlib

/-!
Formal model of the prompt-builder component found in
`src/prompt-builder/src/components/PromptBuilder.tsx`: the state reducer,
the document compiler (`buildPrompt`), the completion percentage
(`answerCompletion`), the pending-required list and the advisory
heuristics (`useDynamicInsights`), and the tag-list parsing performed by
`updateTagList`.

The TypeScript `BuilderState` is `Record<PromptField, string[] | string>`;
it is modelled as a total function `PromptField → FieldValue`, so the
"every field has exactly one entry, no extra keys" invariant of the record
type is structural here.  JavaScript truthiness of a field value is
modelled by `FieldValue.isTruthy` (a non-empty string or any array is
truthy), and `Array.isArray` by `FieldValue.isArray`.
-/

set_option maxRecDepth 8000

namespace PromptBuilder

/-- The nine semantic fields of the questionnaire (`PromptField` in the source). -/
inductive PromptField where
  | objective
  | audience
  | tone
  | format
  | constraints
  | inputs
  | context
  | evaluation
  | persona
  deriving DecidableEq, Repr

/-- A field's value: free-text fields hold a string, tag-list fields hold an
ordered sequence of strings (`string[] | string` in the source). -/
inductive FieldValue where
  | str (s : String)
  | tags (ts : List String)
  deriving DecidableEq, Repr

/-- The answer state: one value per field (`BuilderState` in the source). -/
abbrev BuilderState := PromptField → FieldValue

/-- JavaScript truthiness of a field value: a string is truthy iff non-empty,
an array is always truthy (models `if (state.persona)` etc.). -/
def FieldValue.isTruthy : FieldValue → Bool
  | .str s => decide (s ≠ "")
  | .tags _ => true

/-- Models `Array.isArray` on a field value. -/
def FieldValue.isArray : FieldValue → Bool
  | .str _ => false
  | .tags _ => true

/-- Whether a field value is a string (the shape expected of text fields). -/
def FieldValue.isStr : FieldValue → Bool
  | .str _ => true
  | .tags _ => false

/-- Extracts the string of a `.str` value (spec-side accessor; `""` on arrays). -/
def FieldValue.getStr : FieldValue → String
  | .str s => s
  | .tags _ => ""

/-- Extracts the list of a `.tags` value (spec-side accessor; `[]` on strings). -/
def FieldValue.getTags : FieldValue → List String
  | .str _ => []
  | .tags ts => ts

/-- JavaScript string coercion of a field value, as in a template literal:
a string is itself, an array joins its elements with a comma. -/
def FieldValue.jsToString : FieldValue → String
  | .str s => s
  | .tags ts => String.intercalate "," ts

/-- The whitespace characters stripped by JavaScript's `String.prototype.trim`:
ASCII whitespace, no-break space and the byte-order mark.  (The remaining
Unicode category-Zs separators are omitted from the model; no analysed
behaviour depends on them.) -/
def jsWhitespaceChar (c : Char) : Bool :=
  c = ' ' || c = '\t' || c = '\n' || c = '\r' || c = '\x0b' || c = '\x0c' ||
    c = '\u00A0' || c = '\uFEFF'

/-- Model of JavaScript's `String.prototype.trim`: drops leading and trailing
whitespace characters.  Defined over the character list so that it computes
by kernel reduction. -/
def jsTrim (s : String) : String :=
  String.mk (((s.data.dropWhile jsWhitespaceChar).reverse.dropWhile
      jsWhitespaceChar).reverse)

/-- Model of JavaScript's `String.prototype.split(',')`: the comma-separated
pieces of the string, in order; an empty string yields one empty piece. -/
def jsSplitComma (s : String) : List String :=
  (s.data.splitOn ',').map (fun cs => String.mk cs)

/-- The edit actions of the reducer (`Action` in the source). -/
inductive Action where
  | updateField (field : PromptField) (value : String)
  | updateTags (field : PromptField) (tags : List String)
  | reset (payload : BuilderState)

/-- The input kind of each question in the descriptor table (`Question.type`). -/
inductive QuestionType where
  | text
  | textarea
  | tags
  | select
  deriving DecidableEq, Repr

/-- A row of the static descriptor table (`Question` in the source). -/
structure Question where
  id : String
  title : String
  description : String
  field : PromptField
  type : QuestionType
  placeholder : Option String := none
  options : Option (List String) := none
  required : Bool := false
  deriving DecidableEq, Repr

/-- The all-empty initial state (`initialState` in the source). -/
def initialState : BuilderState := fun f =>
  match f with
  | .objective => .str ""
  | .audience => .str ""
  | .tone => .str ""
  | .format => .str ""
  | .constraints => .tags []
  | .inputs => .tags []
  | .context => .str ""
  | .evaluation => .str ""
  | .persona => .str ""

/-- The static descriptor table (`baseQuestions` in the source). -/
def baseQuestions : List Question :=
  [{ id := "objective",
     title := "Objetivo central",
     description := "Qual problema ou tarefa o prompt precisa resolver? Quanto mais específico, melhor.",
     field := .objective,
     type := .textarea,
     placeholder := some "Ex.: Criar um roteiro detalhado para um vídeo educativo sobre IA generativa.",
     required := true },
   { id := "audience",
     title := "Público-alvo e nível",
     description := "Quem irá consumir o resultado? Inclua nível de conhecimento, idioma preferido e contexto cultural.",
     field := .audience,
     type := .textarea,
     placeholder := some "Ex.: Profissionais de marketing com experiência intermediária, falantes de português brasileiro.",
     required := true },
   { id := "persona",
     title := "Persona do assistente",
     description := "Defina o papel, expertise e traços do assistente que irá gerar a resposta.",
     field := .persona,
     type := .textarea,
     placeholder := some "Ex.: Especialista em storytelling com foco em marketing digital e linguagem acessível." },
   { id := "tone",
     title := "Tom e estilo desejados",
     description := "Determine o estilo de comunicação, referências e formatos de escrita preferidos.",
     field := .tone,
     type := .textarea,
     placeholder := some "Ex.: Inspirador, direto, com exemplos práticos e analogias relevantes." },
   { id := "format",
     title := "Formato de saída",
     description := "Especifique estrutura, seções obrigatórias, tamanho e formatos de entrega esperados.",
     field := .format,
     type := .textarea,
     placeholder := some "Ex.: Sumário executivo com seções: Contexto, Estratégia, Táticas, Métricas. Máx. 800 palavras." },
   { id := "inputs",
     title := "Informações de entrada",
     description := "Liste dados obrigatórios, anexos, frameworks ou fontes que a IA deve considerar.",
     field := .inputs,
     type := .tags },
   { id := "constraints",
     title := "Restrições e regras",
     description := "Defina regras inegociáveis, padrões, formato de citação, limites ou conteúdos proibidos.",
     field := .constraints,
     type := .tags },
   { id := "context",
     title := "Contexto adicional",
     description := "Forneça antecedentes, metas de longo prazo ou referências úteis para a geração.",
     field := .context,
     type := .textarea,
     placeholder := some "Ex.: Última campanha performou abaixo do esperado devido à baixa personalização." },
   { id := "evaluation",
     title := "Critérios de avaliação",
     description := "Defina como medir se a resposta é satisfatória: métricas, checklist ou perguntas de validação.",
     field := .evaluation,
     type := .textarea,
     placeholder := some "Ex.: Deve incluir plano de ação, exemplos concretos e KPIs mensuráveis." }]

/-- Overwriting one field of a state, as the reducer's object-spread update
`{...state, [action.field]: value}` does. -/
def setFV (s : BuilderState) (f : PromptField) (w : FieldValue) : BuilderState :=
  fun g => if g = f then w else s g

/-- The state reducer (`builderReducer` in the source): `updateField` and
`updateTags` overwrite the named field, `reset` replaces the whole state. -/
def builderReducer (state : BuilderState) (action : Action) : BuilderState :=
  match action with
  | .updateField field value => setFV state field (.str value)
  | .updateTags field tags => setFV state field (.tags tags)
  | .reset payload => payload

/-- The unanswered test used by the pending-required filter in
`useDynamicInsights`: an array is unanswered iff empty, a string iff its
trimmed form has length 0. -/
def unansweredB : FieldValue → Bool
  | .tags ts => decide (ts.length = 0)
  | .str s => decide ((jsTrim s).length = 0)

/-- The answered test used by `answerCompletion`: an array is answered iff
non-empty, a string iff its trimmed form has positive length. -/
def answeredB : FieldValue → Bool
  | .tags ts => decide (ts.length > 0)
  | .str s => decide ((jsTrim s).length > 0)

/-- The pending-required list computed in `useDynamicInsights`: required
questions whose current value is unanswered, mapped to their titles. -/
def pending (s : BuilderState) : List String :=
  ((baseQuestions.filter (fun q => q.required)).filter
      (fun q => unansweredB (s q.field))).map (fun q => q.title)

/-- The advisory list computed in `useDynamicInsights`: three independent
rules in a fixed order (`state.objective && state.format === ''`;
`Array.isArray(state.constraints) && state.constraints.length === 0`;
`state.evaluation === ''`). -/
def insights (s : BuilderState) : List String :=
  (if (s PromptField.objective).isTruthy && (s PromptField.format = FieldValue.str "") then
      ["Detalhe o formato de saída para alinhar expectativas e facilitar validação."]
    else []) ++
  (match s PromptField.constraints with
    | .tags ts =>
        if ts.length = 0 then
          ["Adicione restrições ou critérios de segurança para evitar respostas incorretas."]
        else []
    | .str _ => []) ++
  (if s PromptField.evaluation = FieldValue.str "" then
      ["Defina critérios de avaliação para facilitar ajustes e iterações futuras."]
    else [])

/-- The fixed closing instruction block appended by `buildPrompt`. -/
def closingBlock : String :=
  "Antes de responder, valide se todas as informações são suficientes. Caso falte algo, faça perguntas específicas para complementar o briefing."

/-- The persona block of `buildPrompt` (emitted when `state.persona` is truthy). -/
def personaBlock (s : BuilderState) : List String :=
  if (s PromptField.persona).isTruthy then
    ["Você é " ++ (s PromptField.persona).jsToString ++ "."]
  else []

/-- The objective block of `buildPrompt`. -/
def objectiveBlock (s : BuilderState) : List String :=
  if (s PromptField.objective).isTruthy then
    ["Tarefa principal:\n" ++ (s PromptField.objective).jsToString]
  else []

/-- The audience block of `buildPrompt`. -/
def audienceBlock (s : BuilderState) : List String :=
  if (s PromptField.audience).isTruthy then
    ["Público-alvo:\n" ++ (s PromptField.audience).jsToString]
  else []

/-- The context block of `buildPrompt`. -/
def contextBlock (s : BuilderState) : List String :=
  if (s PromptField.context).isTruthy then
    ["Contexto:\n" ++ (s PromptField.context).jsToString]
  else []

/-- The inputs block of `buildPrompt`: emitted when `state.inputs` is a
non-empty array (`state.inputs && Array.isArray(state.inputs) &&
state.inputs.length > 0`), one bulleted line per item. -/
def inputsBlock (s : BuilderState) : List String :=
  match s PromptField.inputs with
  | .tags ts =>
      if ts.length > 0 then
        ["Considere obrigatoriamente:\n" ++
          String.intercalate "\n" (ts.map (fun item => "- " ++ item))]
      else []
  | .str _ => []

/-- The tone block of `buildPrompt`. -/
def toneBlock (s : BuilderState) : List String :=
  if (s PromptField.tone).isTruthy then
    ["Tom e estilo desejados:\n" ++ (s PromptField.tone).jsToString]
  else []

/-- The format block of `buildPrompt`. -/
def formatBlock (s : BuilderState) : List String :=
  if (s PromptField.format).isTruthy then
    ["Formato de saída:\n" ++ (s PromptField.format).jsToString]
  else []

/-- The constraints block of `buildPrompt`: emitted when `state.constraints`
is a non-empty array, one bulleted line per item. -/
def constraintsBlock (s : BuilderState) : List String :=
  match s PromptField.constraints with
  | .tags ts =>
      if ts.length > 0 then
        ["Restrições:\n" ++
          String.intercalate "\n" (ts.map (fun item => "- " ++ item))]
      else []
  | .str _ => []

/-- The evaluation block of `buildPrompt`. -/
def evaluationBlock (s : BuilderState) : List String :=
  if (s PromptField.evaluation).isTruthy then
    ["Avaliação de qualidade:\n" ++ (s PromptField.evaluation).jsToString]
  else []

/-- The conditional blocks of `buildPrompt`, in the order the source pushes
them onto `blocks`. -/
def condBlocks (s : BuilderState) : List String :=
  personaBlock s ++ objectiveBlock s ++ audienceBlock s ++ contextBlock s ++
    inputsBlock s ++ toneBlock s ++ formatBlock s ++ constraintsBlock s ++
    evaluationBlock s

/-- The full block list of `buildPrompt`: the conditional blocks followed by
the unconditional closing instruction. -/
def blocksOf (s : BuilderState) : List String :=
  condBlocks s ++ [closingBlock]

/-- The document compiler (`buildPrompt` in the source):
`blocks.join('\n\n')`. -/
def buildPrompt (s : BuilderState) : String :=
  String.intercalate "\n\n" (blocksOf s)

/-- The block contributed by one field, used to state per-field properties.
Dispatches to the nine conditional block definitions. -/
def fieldBlock (f : PromptField) (s : BuilderState) : List String :=
  match f with
  | .persona => personaBlock s
  | .objective => objectiveBlock s
  | .audience => audienceBlock s
  | .context => contextBlock s
  | .inputs => inputsBlock s
  | .tone => toneBlock s
  | .format => formatBlock s
  | .constraints => constraintsBlock s
  | .evaluation => evaluationBlock s

/-- The completion percentage (`answerCompletion` in the source):
`Math.round((answered / baseQuestions.length) * 100)` where `answered`
counts the questions whose value passes `answeredB`.  Rounding of the
rational value half-up is expressed over naturals as
`(2 * (100 * answered) + n) / (2 * n)`; at the source's nine fields the
value is never a half-way case, so this agrees exactly with the source's
floating-point `Math.round`. -/
def answerCompletion (s : BuilderState) : Nat :=
  (2 * (100 * (baseQuestions.filter (fun q => answeredB (s q.field))).length)
      + baseQuestions.length) /
    (2 * baseQuestions.length)

/-- The comma-separated parsing performed by `updateTagList` before it
dispatches `updateTags`: split on commas, trim each piece, drop empty
pieces (`.filter(Boolean)`). -/
def parseTags (payload : String) : List String :=
  ((jsSplitComma payload).map (fun item => jsTrim item)).filter
    (fun item => item != "")

/-- Whether a field is one of the tag-list fields of the descriptor table
(the questions whose `type` is `tags`: `inputs` and `constraints`). -/
def isTagField : PromptField → Bool
  | .constraints => true
  | .inputs => true
  | _ => false

/-- Whether a field is a text field of the descriptor table. -/
def isTextField (f : PromptField) : Bool := !(isTagField f)

/-- A state is well-formed when every text field holds a string and every
tag-list field holds an array, as the source's `initialState` and reducer
discipline maintain. -/
def WellFormed (s : BuilderState) : Bool :=
  (s PromptField.objective).isStr && (s PromptField.audience).isStr &&
    (s PromptField.tone).isStr && (s PromptField.format).isStr &&
    (s PromptField.constraints).isArray && (s PromptField.inputs).isArray &&
    (s PromptField.context).isStr && (s PromptField.evaluation).isStr &&
    (s PromptField.persona).isStr

/-- Builds the well-formed state with the given nine field values. -/
def mkState (ob au tn fm : String) (cs ins : List String)
    (cx ev pe : String) : BuilderState := fun f =>
  match f with
  | .objective => .str ob
  | .audience => .str au
  | .tone => .str tn
  | .format => .str fm
  | .constraints => .tags cs
  | .inputs => .tags ins
  | .context => .str cx
  | .evaluation => .str ev
  | .persona => .str pe

/-- Spec-side block list, following the spec's wording for the document
assembly algorithm: each field's labeled block is emitted iff its string is
non-empty (respectively its sequence is non-empty), in the fixed order
persona, objective, audience, context, inputs, tone, format, constraints,
evaluation, then the closing instruction. -/
def specBlocks (s : BuilderState) : List String :=
  (if (s PromptField.persona).getStr ≠ "" then
      ["Você é " ++ (s PromptField.persona).getStr ++ "."]
    else []) ++
  (if (s PromptField.objective).getStr ≠ "" then
      ["Tarefa principal:\n" ++ (s PromptField.objective).getStr]
    else []) ++
  (if (s PromptField.audience).getStr ≠ "" then
      ["Público-alvo:\n" ++ (s PromptField.audience).getStr]
    else []) ++
  (if (s PromptField.context).getStr ≠ "" then
      ["Contexto:\n" ++ (s PromptField.context).getStr]
    else []) ++
  (if (s PromptField.inputs).getTags ≠ [] then
      ["Considere obrigatoriamente:\n" ++
        String.intercalate "\n" (((s PromptField.inputs).getTags).map
          (fun item => "- " ++ item))]
    else []) ++
  (if (s PromptField.tone).getStr ≠ "" then
      ["Tom e estilo desejados:\n" ++ (s PromptField.tone).getStr]
    else []) ++
  (if (s PromptField.format).getStr ≠ "" then
      ["Formato de saída:\n" ++ (s PromptField.format).getStr]
    else []) ++
  (if (s PromptField.constraints).getTags ≠ [] then
      ["Restrições:\n" ++
        String.intercalate "\n" (((s PromptField.constraints).getTags).map
          (fun item => "- " ++ item))]
    else []) ++
  (if (s PromptField.evaluation).getStr ≠ "" then
      ["Avaliação de qualidade:\n" ++ (s PromptField.evaluation).getStr]
    else []) ++
  [closingBlock]

/-- Spec-side document: the spec-side blocks joined with a double newline. -/
def specDocument (s : BuilderState) : String :=
  String.intercalate "\n\n" (specBlocks s)

/-- Spec-side unanswered test, following the pending-required wording:
"empty string after trimming, or empty sequence". -/
def specUnansweredB : FieldValue → Bool
  | .str t => decide (jsTrim t = "")
  | .tags l => decide (l = [])

/-- Spec-side answered count with the amended reading of "answered": a text
field counts iff its string is non-empty after trimming, a tag-list field
iff its sequence is non-empty; counted over the descriptor table. -/
def specAnswered (s : BuilderState) : Nat :=
  ((baseQuestions.map (fun q => q.field)).filter
      (fun f => !(specUnansweredB (s f)))).length

/-- The claim's literal answered count: a text field counts iff its string is
non-empty (no trimming), a tag-list field iff its sequence is non-empty. -/
def claimAnswered (s : BuilderState) : Nat :=
  ((baseQuestions.map (fun q => q.field)).filter
      (fun f =>
        match s f with
        | .str t => decide (t ≠ "")
        | .tags l => decide (l ≠ []))).length

/-- Round-half-up of the rational `num / den` over naturals, as the spec's
`round(100 * A / R)` prescribes. -/
def roundHalfUp (num den : Nat) : Nat :=
  (2 * num + den) / (2 * den)

/-- A fully answered well-formed state, used as a concrete instance. -/
def fullState : BuilderState :=
  mkState "a" "b" "c" "d" ["x"] ["y"] "e" "f" "g"

/-- A well-formed state whose objective is a single space (non-empty but
trimming to empty), used as a concrete instance. -/
def spaceObjectiveState : BuilderState :=
  mkState " " "" "" "" [] [] "" "" ""

/-- A well-formed state whose format is a single space (non-empty but
trimming to empty), used as a concrete instance. -/
def spaceFormatState : BuilderState :=
  mkState "" "" "" " " [] [] "" "" ""

/-- A mixed well-formed state, used as a concrete instance. -/
def mixedState : BuilderState :=
  mkState "obj" "aud" "tone" "" [] ["i1", "i2"] "ctx" "" "per"

/-! ### Helper lemmas -/

theorem FieldValue.eq_str_getStr {v : FieldValue} (h : v.isStr = true) :
    v = .str v.getStr := by
  cases v with
  | str s => rfl
  | tags ts => simp [FieldValue.isStr] at h

theorem FieldValue.eq_tags_getTags {v : FieldValue} (h : v.isArray = true) :
    v = .tags v.getTags := by
  cases v with
  | str s => simp [FieldValue.isArray] at h
  | tags ts => rfl

theorem wellFormed_mkState (ob au tn fm : String) (cs ins : List String)
    (cx ev pe : String) :
    WellFormed (mkState ob au tn fm cs ins cx ev pe) = true := rfl

/-- Every well-formed state is an `mkState` of its nine component values. -/
theorem wellFormed_exists {s : BuilderState} (hw : WellFormed s = true) :
    ∃ ob au tn fm cs ins cx ev pe, s = mkState ob au tn fm cs ins cx ev pe := by
  simp only [WellFormed, Bool.and_eq_true] at hw
  refine ⟨(s PromptField.objective).getStr, (s PromptField.audience).getStr,
    (s PromptField.tone).getStr, (s PromptField.format).getStr,
    (s PromptField.constraints).getTags, (s PromptField.inputs).getTags,
    (s PromptField.context).getStr, (s PromptField.evaluation).getStr,
    (s PromptField.persona).getStr, ?_⟩
  funext f
  cases f <;>
    first
      | exact FieldValue.eq_str_getStr (by tauto)
      | exact FieldValue.eq_tags_getTags (by tauto)

theorem intercalate_go_ends (sep x : String) :
    ∀ (l : List String) (acc : String),
      ∃ p, String.intercalate.go acc sep (l ++ [x]) = p ++ x := by
  intro l
  induction l with
  | nil => intro acc; exact ⟨acc ++ sep, rfl⟩
  | cons a l ih => intro acc; exact ih (acc ++ sep ++ a)

/-- Joining a block list that ends in `x` yields a string ending in `x`. -/
theorem intercalate_ends (sep x : String) (l : List String) :
    ∃ p, String.intercalate sep (l ++ [x]) = p ++ x := by
  cases l with
  | nil => exact ⟨"", rfl⟩
  | cons a l => exact intercalate_go_ends sep x l a

theorem setFV_ne {s : BuilderState} {f g : PromptField} {w : FieldValue}
    (hg : g ≠ f) : setFV s f w g = s g := by
  simp [setFV, hg]

theorem fieldBlock_congr {s₁ s₂ : BuilderState} (f : PromptField)
    (h : s₁ f = s₂ f) : fieldBlock f s₁ = fieldBlock f s₂ := by
  cases f <;>
    simp only [fieldBlock, personaBlock, objectiveBlock, audienceBlock,
      contextBlock, inputsBlock, toneBlock, formatBlock, constraintsBlock,
      evaluationBlock, h]

theorem fieldBlock_str_empty {s : BuilderState} (f : PromptField)
    (h : s f = FieldValue.str "") : fieldBlock f s = [] := by
  cases f <;>
    simp [fieldBlock, personaBlock, objectiveBlock, audienceBlock,
      contextBlock, inputsBlock, toneBlock, formatBlock, constraintsBlock,
      evaluationBlock, h, FieldValue.isTruthy]

theorem fieldBlock_tags_empty {s : BuilderState} (f : PromptField)
    (hf : isTagField f = true) (h : s f = FieldValue.tags []) :
    fieldBlock f s = [] := by
  cases f <;>
    simp_all [isTagField, fieldBlock, inputsBlock, constraintsBlock]

/-- In a well-formed state only a tag-list field can hold the empty array. -/
theorem tagField_of_wellFormed {s : BuilderState} (hw : WellFormed s = true)
    (f : PromptField) (h : s f = FieldValue.tags []) : isTagField f = true := by
  simp only [WellFormed, Bool.and_eq_true] at hw
  cases f <;> simp_all [FieldValue.isStr, FieldValue.isArray, isTagField]

/-- If one field's block only grows, the whole block list only grows. -/
theorem blocksOf_sublist_setFV (s : BuilderState) (f : PromptField)
    (w : FieldValue)
    (hf : List.Sublist (fieldBlock f s) (fieldBlock f (setFV s f w))) :
    List.Sublist (blocksOf s) (blocksOf (setFV s f w)) := by
  have all : ∀ g, List.Sublist (fieldBlock g s) (fieldBlock g (setFV s f w)) := by
    intro g
    by_cases hg : g = f
    · subst hg; exact hf
    · rw [fieldBlock_congr g (setFV_ne hg)]
  show List.Sublist (condBlocks s ++ [closingBlock])
    (condBlocks (setFV s f w) ++ [closingBlock])
  refine List.Sublist.append ?_ (List.Sublist.refl _)
  exact ((((((((all .persona).append (all .objective)).append
    (all .audience)).append (all .context)).append (all .inputs)).append
    (all .tone)).append (all .format)).append (all .constraints)).append
    (all .evaluation)

/-- Every block a field contributes appears in the compiled block list. -/
theorem fieldBlock_mem_blocksOf (s : BuilderState) (f : PromptField) :
    ∀ b ∈ fieldBlock f s, b ∈ blocksOf s := by
  intro b hb
  have hc : b ∈ condBlocks s := by
    cases f <;> simp only [fieldBlock] at hb <;> simp [condBlocks, hb]
  simp [blocksOf, hc]

theorem string_length_eq_zero (t : String) : t.length = 0 ↔ t = "" := by
  cases t with
  | mk data =>
      rw [String.ext_iff]
      show data.length = 0 ↔ data = ([] : List Char)
      exact List.length_eq_zero

theorem unansweredB_eq_spec (v : FieldValue) :
    unansweredB v = specUnansweredB v := by
  cases v with
  | str t =>
      simp [unansweredB, specUnansweredB, string_length_eq_zero]
  | tags l =>
      simp [unansweredB, specUnansweredB, List.length_eq_zero]

theorem answeredB_eq_not_spec (v : FieldValue) :
    answeredB v = !(specUnansweredB v) := by
  cases v with
  | str t =>
      simp only [answeredB, specUnansweredB, ← decide_not, decide_eq_decide]
      rw [← string_length_eq_zero]
      omega
  | tags l =>
      simp only [answeredB, specUnansweredB, ← decide_not, decide_eq_decide]
      rw [← List.length_eq_zero]
      omega

/-- Sanity: a question's `type` is `tags` exactly when its field is one of
the tag-list fields. -/
theorem isTagField_matches_table :
    ∀ q ∈ baseQuestions, q.type = QuestionType.tags ↔ isTagField q.field = true := by
  decide

/-! ### Claims -/

/-- C8: applying the reset action with payload `b` yields exactly `b`, for
every state `s`; in particular it restores the all-empty initial state when
given it as payload. -/
theorem C8_reset_replaces (s b : BuilderState) :
    builderReducer s (Action.reset b) = b ∧
      builderReducer s (Action.reset initialState) = initialState :=
  ⟨rfl, rfl⟩

/-- C3: the compiled document always ends with the fixed closing instruction
block (it is some prefix followed by that block), it is never the empty
string, and at the all-empty baseline it equals the closing block alone. -/
theorem C3_closing_block_last (s : BuilderState) :
    (∃ p, buildPrompt s = p ++ closingBlock) ∧ buildPrompt s ≠ "" ∧
      buildPrompt initialState = closingBlock := by
  obtain ⟨p, hp⟩ := intercalate_ends "\n\n" closingBlock (condBlocks s)
  have hp' : buildPrompt s = p ++ closingBlock := hp
  refine ⟨⟨p, hp'⟩, ?_, by decide⟩
  intro h
  have hlen := congrArg String.length (hp'.symm.trans h)
  rw [String.length_append] at hlen
  have hc : 0 < closingBlock.length := by decide
  have h0 : ("" : String).length = 0 := rfl
  omega

/-- C6: the tag-list parsing of `updateTagList` keeps exactly the trimmed
non-empty comma-separated pieces, in order and without deduplication; in
particular "a, b ,,c" yields ["a","b","c"], and "x, x" keeps the
duplicate. -/
theorem C6_tag_parsing (raw : String) :
    parseTags raw =
        (jsSplitComma raw).filterMap
          (fun piece =>
            if jsTrim piece = "" then none else some (jsTrim piece)) ∧
      parseTags "a, b ,,c" = ["a", "b", "c"] ∧
      parseTags "x, x" = ["x", "x"] := by
  refine ⟨?_, by decide, by decide⟩
  unfold parseTags
  generalize jsSplitComma raw = l
  induction l with
  | nil => rfl
  | cons a l ih =>
      by_cases h : jsTrim a = "" <;>
        simp [List.filter_cons, List.filterMap_cons, h, ih]

/-- C4: the pending-required list holds the title of each required field
(objective, then audience) whose value is unanswered (empty after trimming
or empty sequence); at the baseline it is exactly those two titles, and it
is empty once both required fields are answered. -/
theorem C4_pending_required (s : BuilderState) :
    pending s =
        (if specUnansweredB (s PromptField.objective) then
            ["Objetivo central"]
          else []) ++
          (if specUnansweredB (s PromptField.audience) then
              ["Público-alvo e nível"]
            else []) ∧
      pending initialState = ["Objetivo central", "Público-alvo e nível"] ∧
      (specUnansweredB (s PromptField.objective) = false →
        specUnansweredB (s PromptField.audience) = false → pending s = []) := by
  have key : pending s =
      (if specUnansweredB (s PromptField.objective) then
          ["Objetivo central"]
        else []) ++
        (if specUnansweredB (s PromptField.audience) then
            ["Público-alvo e nível"]
          else []) := by
    cases ho : specUnansweredB (s PromptField.objective) <;>
      cases ha : specUnansweredB (s PromptField.audience) <;>
        simp [pending, baseQuestions, unansweredB_eq_spec, ho, ha]
  refine ⟨key, by decide, ?_⟩
  intro ho ha
  rw [key, ho, ha]
  rfl

/-- C4 witness: with both required fields answered the pending list is empty. -/
theorem C4_pending_required_witness : pending fullState = [] :=
  (C4_pending_required fullState).2.2 (by decide) (by decide)

theorem answered_count_eq (s : BuilderState) :
    (baseQuestions.filter (fun q => answeredB (s q.field))).length =
      specAnswered s := by
  unfold specAnswered
  rw [List.filter_map]
  simp only [answeredB_eq_not_spec, List.length_map]
  rfl

/-- C2 counterexample: at the well-formed state whose objective is a single
space, the compiled completion percent is 0, but the claim's formula — with
"answered" meaning a non-empty untrimmed string — yields round(100/9) = 11. -/
theorem C2_untrimmed_count_counterexample :
    ¬ (answerCompletion spaceObjectiveState =
        roundHalfUp (100 * claimAnswered spaceObjectiveState) 9) := by
  decide

/-- C2 (amended): the completion percent equals round-half-up of
`100 * A / 9` where `A` counts the fields answered after trimming (non-empty
trimmed string for text fields, non-empty sequence for tag-list fields); it
is 0 at the all-empty baseline, 100 when all nine fields are answered, and
always at most 100. -/
theorem C2_completion_formula (s : BuilderState) :
    answerCompletion s = roundHalfUp (100 * specAnswered s) 9 ∧
      answerCompletion s ≤ 100 ∧
      answerCompletion initialState = 0 ∧
      (specAnswered s = 9 → answerCompletion s = 100) := by
  have hc := answered_count_eq s
  have hb : specAnswered s ≤ 9 := by
    rw [← hc]
    exact List.length_filter_le _ baseQuestions
  have hf : answerCompletion s = (2 * (100 * specAnswered s) + 9) / 18 := by
    unfold answerCompletion
    rw [hc, show baseQuestions.length = 9 from rfl]
  refine ⟨by rw [hf]; rfl, by omega, by decide, ?_⟩
  intro h9
  rw [hf, h9]

/-- C2 witness: the fully answered state reaches exactly 100 percent. -/
theorem C2_completion_formula_witness : answerCompletion fullState = 100 :=
  (C2_completion_formula fullState).2.2.2 (by decide)

/-- C1: on every well-formed state the compiled document is exactly the
blocks persona, objective, audience, context, inputs (bulleted, in order),
tone, format, constraints (bulleted, in order), evaluation — each present
iff its field is non-empty — followed by the fixed closing instruction
block, all joined with a double newline. -/
theorem C1_document_block_order (s : BuilderState) (hw : WellFormed s = true) :
    buildPrompt s = specDocument s := by
  obtain ⟨ob, au, tn, fm, cs, ins, cx, ev, pe, rfl⟩ := wellFormed_exists hw
  simp only [buildPrompt, specDocument, blocksOf, condBlocks, specBlocks,
    personaBlock, objectiveBlock, audienceBlock, contextBlock, inputsBlock,
    toneBlock, formatBlock, constraintsBlock, evaluationBlock, mkState,
    FieldValue.isTruthy, FieldValue.getStr, FieldValue.getTags,
    FieldValue.jsToString, decide_eq_true_eq, gt_iff_lt, List.length_pos,
    ne_eq]

/-- C1 witness: the document of a concrete mixed state matches the spec-side
assembly. -/
theorem C1_document_block_order_witness :
    WellFormed mixedState = true ∧ buildPrompt mixedState = specDocument mixedState :=
  ⟨by decide, C1_document_block_order mixedState (by decide)⟩

/-- C5: on every well-formed state the advisory list consists of exactly the
three rule messages in a fixed order: the output-format advisory iff the
objective string is non-empty and the format string is exactly empty, the
constraints advisory iff the constraints sequence is empty, and the
evaluation advisory iff the evaluation string is exactly empty. -/
theorem C5_advisory_rules (s : BuilderState) (hw : WellFormed s = true) :
    insights s =
        (if (s PromptField.objective).getStr ≠ "" ∧
            (s PromptField.format).getStr = "" then
            ["Detalhe o formato de saída para alinhar expectativas e facilitar validação."]
          else []) ++
          (if (s PromptField.constraints).getTags = [] then
              ["Adicione restrições ou critérios de segurança para evitar respostas incorretas."]
            else []) ++
          (if (s PromptField.evaluation).getStr = "" then
              ["Defina critérios de avaliação para facilitar ajustes e iterações futuras."]
            else []) := by
  obtain ⟨ob, au, tn, fm, cs, ins, cx, ev, pe, rfl⟩ := wellFormed_exists hw
  simp only [insights, mkState, FieldValue.isTruthy, FieldValue.getStr,
    FieldValue.getTags, decide_eq_true_eq, Bool.and_eq_true,
    FieldValue.str.injEq, List.length_eq_zero, ne_eq]

/-- C5 witness: the advisory list of a concrete mixed state matches the
three-rule characterisation. -/
theorem C5_advisory_rules_witness :
    WellFormed mixedState = true ∧
      insights mixedState =
        ["Detalhe o formato de saída para alinhar expectativas e facilitar validação.",
          "Adicione restrições ou critérios de segurança para evitar respostas incorretas.",
          "Defina critérios de avaliação para facilitar ajustes e iterações futuras."] := by
  refine ⟨by decide, ?_⟩
  rw [C5_advisory_rules mixedState (by decide)]
  decide

/-- C7: on every well-formed state, changing one field from its empty value
to a non-empty value only grows the block list — the old block list is a
sublist of the new one — and leaves every other field's block unchanged;
stated for both the text-field and the tag-list edit actions. -/
theorem C7_monotonic_blocks (s : BuilderState) (hw : WellFormed s = true) :
    (∀ f v, s f = FieldValue.str "" → v ≠ "" →
        List.Sublist (blocksOf s)
            (blocksOf (builderReducer s (Action.updateField f v))) ∧
          ∀ g, g ≠ f →
            fieldBlock g (builderReducer s (Action.updateField f v)) =
              fieldBlock g s) ∧
      (∀ f ts, s f = FieldValue.tags [] → ts ≠ [] →
        List.Sublist (blocksOf s)
            (blocksOf (builderReducer s (Action.updateTags f ts))) ∧
          ∀ g, g ≠ f →
            fieldBlock g (builderReducer s (Action.updateTags f ts)) =
              fieldBlock g s) := by
  constructor
  · intro f v hempty _
    constructor
    · apply blocksOf_sublist_setFV
      rw [fieldBlock_str_empty f hempty]
      exact List.nil_sublist _
    · intro g hg
      exact fieldBlock_congr g (setFV_ne hg)
  · intro f ts hempty _
    have hft : isTagField f = true := tagField_of_wellFormed hw f hempty
    constructor
    · apply blocksOf_sublist_setFV
      rw [fieldBlock_tags_empty f hft hempty]
      exact List.nil_sublist _
    · intro g hg
      exact fieldBlock_congr g (setFV_ne hg)

/-- C7 witness: filling the objective of the baseline only grows the block
list. -/
theorem C7_monotonic_blocks_witness :
    List.Sublist (blocksOf initialState)
      (blocksOf (builderReducer initialState
        (Action.updateField PromptField.objective "x"))) :=
  ((C7_monotonic_blocks initialState (by decide)).1 PromptField.objective "x"
    (by decide) (by decide)).1

/-- C9: on every well-formed state, setting a text field to any string or a
tag-list field to any sequence yields a well-formed state again and changes
only the named field, and reset with a well-formed payload yields exactly
that payload; the field set itself is fixed (the state is a total function
on the nine descriptor fields, so no key can appear or disappear). -/
theorem C9_reducer_wellformed (s : BuilderState) (hw : WellFormed s = true) :
    (∀ f v, isTextField f = true →
        WellFormed (builderReducer s (Action.updateField f v)) = true ∧
          ∀ g, g ≠ f → builderReducer s (Action.updateField f v) g = s g) ∧
      (∀ f ts, isTagField f = true →
        WellFormed (builderReducer s (Action.updateTags f ts)) = true ∧
          ∀ g, g ≠ f → builderReducer s (Action.updateTags f ts) g = s g) ∧
      (∀ p, WellFormed p = true →
        WellFormed (builderReducer s (Action.reset p)) = true ∧
          builderReducer s (Action.reset p) = p) := by
  simp only [WellFormed, Bool.and_eq_true] at hw
  refine ⟨?_, ?_, fun p hp => ⟨hp, rfl⟩⟩
  · intro f v hf
    refine ⟨?_, fun g hg => setFV_ne hg⟩
    cases f <;>
      simp_all [builderReducer, setFV, WellFormed, FieldValue.isStr,
        FieldValue.isArray, isTextField, isTagField]
  · intro f ts hf
    refine ⟨?_, fun g hg => setFV_ne hg⟩
    cases f <;>
      simp_all [builderReducer, setFV, WellFormed, FieldValue.isStr,
        FieldValue.isArray, isTagField]

/-- C9 witness: updating the objective of the baseline stays well-formed. -/
theorem C9_reducer_wellformed_witness :
    WellFormed (builderReducer initialState
      (Action.updateField PromptField.objective "x")) = true :=
  ((C9_reducer_wellformed initialState (by decide)).1 PromptField.objective "x"
    (by decide)).1

/-- C10: on every well-formed state where a text field holds a non-empty
string that trims to empty, the completion count's predicate and the
pending-required predicate both treat the field as unanswered, yet the
field still contributes its labeled block, which appears in the compiled
block list. -/
theorem C10_trim_vs_emission (s : BuilderState) (_hw : WellFormed s = true)
    (f : PromptField) (hf : isTextField f = true) (w : String)
    (hsf : s f = FieldValue.str w) (hne : w ≠ "") (htr : jsTrim w = "") :
    answeredB (s f) = false ∧ unansweredB (s f) = true ∧
      fieldBlock f s ≠ [] ∧ ∀ b ∈ fieldBlock f s, b ∈ blocksOf s := by
  refine ⟨?_, ?_, ?_, fieldBlock_mem_blocksOf s f⟩
  · rw [hsf]
    simp [answeredB, htr]
  · rw [hsf]
    simp [unansweredB, htr]
  · cases f <;>
      simp_all [fieldBlock, personaBlock, objectiveBlock, audienceBlock,
        contextBlock, toneBlock, formatBlock, evaluationBlock, isTextField,
        isTagField, FieldValue.isTruthy]

/-- C10 witness: the state whose format is a single space counts it
unanswered yet still emits the format block into the document. -/
theorem C10_trim_vs_emission_witness :
    answeredB (spaceFormatState PromptField.format) = false ∧
      unansweredB (spaceFormatState PromptField.format) = true ∧
      fieldBlock PromptField.format spaceFormatState ≠ [] ∧
      ∀ b ∈ fieldBlock PromptField.format spaceFormatState,
        b ∈ blocksOf spaceFormatState :=
  C10_trim_vs_emission spaceFormatState (by decide) PromptField.format
    (by decide) " " (by decide) (by decide) (by decide)

end PromptBuilder
